import Mathlib

/-!
Shallow embedding of the nsa-live-signal trading engine, with proofs about
the risk manager, portfolio state, signal generator, execution engine,
quantity calculator, hybrid stop-loss and trade lifecycle.

Python floats are modelled as exact rationals; `int()` truncation and
`round(x, 2)` (round half to even) are modelled explicitly.  Timestamps
are modelled as rational minute counts and calendar dates as integers.
-/

namespace NSALive

/-- Python `int()` applied to a float: truncation toward zero. -/
def pyInt (x : ℚ) : ℤ := if 0 ≤ x then ⌊x⌋ else ⌈x⌉

/-- Round to the nearest integer, ties to even (Python `round` semantics). -/
def rhe (y : ℚ) : ℤ :=
  let f := ⌊y⌋
  let r := y - f
  if r < 1/2 then f
  else if 1/2 < r then f + 1
  else if f % 2 = 0 then f else f + 1

/-- Python `round(x, 2)`: round to two decimal places, ties to even. -/
def round2 (x : ℚ) : ℚ := (rhe (100 * x) : ℚ) / 100

/-- Enum `PositionType` from `core/enums.py`. -/
inductive PositionType
  | LONG
  | SHORT
  | CLOSED
deriving DecidableEq, Repr

/-- Enum `SignalType` from `core/enums.py`. -/
inductive SignalType
  | BUY
  | SELL
  | HOLD
deriving DecidableEq, Repr

/-- Enum `MarketRegime` from `core/enums.py`. -/
inductive MarketRegime
  | TREND
  | RANGE
  | HIGH_VOLATILITY
  | UNKNOWN
deriving DecidableEq, Repr

/-! ## QuantityCalculator (`execution/quantity_calculator.py`) -/

/-- The `reason` strings returned by `QuantityCalculator.calculate_quantity`,
as an enumeration (the Python code returns fixed format strings). -/
inductive QtyReason
  | invalidStopZeroRisk
  | cappedAtMaxPositionPct
  | riskBasedQuantity
  | insufficientCapital
  | riskExceedsLimit
deriving DecidableEq, Repr

/-- Result dictionary of `calculate_quantity`.  Keys present only in the
success branch are modelled as `Option` fields (`none` = key absent). -/
structure QtyResult where
  quantity : ℤ
  valid : Bool
  reason : QtyReason
  capitalRequired : ℚ
  riskAmount : ℚ
  riskPct : Option ℚ
  riskPerShare : Option ℚ
  confidenceMultiplier : Option ℚ
  positionValuePct : Option ℚ
deriving DecidableEq, Repr

/-- Embedding of `QuantityCalculator.calculate_quantity`. -/
def calculate_quantity (totalCapital entryPrice stopLoss : ℚ)
    (riskPerTradePct confidence maxPositionValuePct : ℚ) : QtyResult :=
  let baseRiskAmount := totalCapital * (riskPerTradePct / 100)
  let confidenceMult := min 1 (max (1/2) (confidence / 100))
  let adjustedRiskAmount := baseRiskAmount * confidenceMult
  let riskPerShare := |entryPrice - stopLoss|
  if riskPerShare = 0 then
    { quantity := 0, valid := false, reason := .invalidStopZeroRisk,
      capitalRequired := 0, riskAmount := 0, riskPct := none,
      riskPerShare := none, confidenceMultiplier := none, positionValuePct := none }
  else
    let quantity0 := pyInt (adjustedRiskAmount / riskPerShare)
    let capitalRequired0 := (quantity0 : ℚ) * entryPrice
    let maxPositionValue := totalCapital * (maxPositionValuePct / 100)
    let capped := maxPositionValue < capitalRequired0
    let quantity := if capped then pyInt (maxPositionValue / entryPrice) else quantity0
    let capitalRequired := if capped then (quantity : ℚ) * entryPrice else capitalRequired0
    let actualRisk := if capped then (quantity : ℚ) * riskPerShare else adjustedRiskAmount
    let reason := if capped then QtyReason.cappedAtMaxPositionPct else QtyReason.riskBasedQuantity
    if quantity ≤ 0 then
      { quantity := 0, valid := false, reason := .insufficientCapital,
        capitalRequired := capitalRequired, riskAmount := 0, riskPct := none,
        riskPerShare := none, confidenceMultiplier := none, positionValuePct := none }
    else
      let actualRiskPct := actualRisk / totalCapital * 100
      if riskPerTradePct * (12/10) < actualRiskPct then
        { quantity := 0, valid := false, reason := .riskExceedsLimit,
          capitalRequired := capitalRequired, riskAmount := actualRisk, riskPct := none,
          riskPerShare := none, confidenceMultiplier := none, positionValuePct := none }
      else
        { quantity := quantity, valid := true, reason := reason,
          capitalRequired := capitalRequired, riskAmount := actualRisk,
          riskPct := some actualRiskPct, riskPerShare := some riskPerShare,
          confidenceMultiplier := some confidenceMult,
          positionValuePct := some (capitalRequired / totalCapital * 100) }

/-! ## HybridStopLoss (`execution/stop_loss.py`) -/

/-- One row of the price DataFrame (the columns `calculate_hybrid_stop` reads). -/
structure Candle where
  low : ℚ
  high : ℚ
deriving DecidableEq, Repr

/-- The three candidate stop methods, in the dict order used by the code. -/
inductive StopBase
  | ATR
  | SWING
  | VWAP
deriving DecidableEq, Repr

/-- The `method` label of a stop-loss result; `_ADJUSTED_MIN` / `_ADJUSTED_MAX`
relabelings are modelled as constructors wrapping the base method. -/
inductive StopMethod
  | FALLBACK
  | chosen (m : StopBase)
  | adjustedMin (m : StopBase)
  | adjustedMax (m : StopBase)
deriving DecidableEq, Repr

/-- Result of `calculate_hybrid_stop` (the fields common to both branches). -/
structure StopResult where
  stopLoss : ℚ
  method : StopMethod
  stopDistance : ℚ
  stopDistancePct : ℚ
deriving DecidableEq, Repr

/-- Minimum of a list of rationals (`Series.min` on a nonempty series). -/
def listMin : List ℚ → ℚ
  | [] => 0
  | x :: xs => xs.foldl min x

/-- Maximum of a list of rationals (`Series.max` on a nonempty series). -/
def listMax : List ℚ → ℚ
  | [] => 0
  | x :: xs => xs.foldl max x

/-- Embedding of `HybridStopLoss.calculate_hybrid_stop`.  The DataFrame is
given by its candle rows plus the latest row's optional `atr` and `vwap`
columns (`latest.get` with default). -/
def calculate_hybrid_stop (candles : List Candle) (latestAtr latestVwap : Option ℚ)
    (entryPrice : ℚ) (signalType : SignalType) (atrMultiplier : ℚ) : StopResult :=
  if candles.length < 20 then
    let fallbackStop := if signalType = SignalType.BUY
      then entryPrice * (98/100) else entryPrice * (102/100)
    { stopLoss := fallbackStop, method := .FALLBACK,
      stopDistance := |entryPrice - fallbackStop|, stopDistancePct := 2 }
  else
    let atr := latestAtr.getD (entryPrice * (2/100))
    let atrStop := if signalType = SignalType.BUY
      then entryPrice - atr * atrMultiplier else entryPrice + atr * atrMultiplier
    let lookback := min 20 candles.length
    let recent := candles.drop (candles.length - lookback)
    let swingStop := if signalType = SignalType.BUY
      then listMin (recent.map Candle.low) * (998/1000)
      else listMax (recent.map Candle.high) * (1002/1000)
    let vwap := latestVwap.getD entryPrice
    let vwapStop := if signalType = SignalType.BUY
      then vwap * (995/1000) else vwap * (1005/1000)
    let finalStop := if signalType = SignalType.BUY
      then max atrStop (max swingStop vwapStop)
      else min atrStop (min swingStop vwapStop)
    let method := if atrStop = finalStop then StopBase.ATR
      else if swingStop = finalStop then StopBase.SWING else StopBase.VWAP
    let stopDistance := |entryPrice - finalStop|
    let stopDistancePct := stopDistance / entryPrice * 100
    if stopDistancePct < 1/2 then
      let fs := if signalType = SignalType.BUY
        then entryPrice * (1 - (1/2)/100) else entryPrice * (1 + (1/2)/100)
      { stopLoss := fs, method := .adjustedMin method,
        stopDistance := |entryPrice - fs|, stopDistancePct := 1/2 }
    else if 5 < stopDistancePct then
      let fs := if signalType = SignalType.BUY
        then entryPrice * (1 - 5/100) else entryPrice * (1 + 5/100)
      { stopLoss := fs, method := .adjustedMax method,
        stopDistance := |entryPrice - fs|, stopDistancePct := 5 }
    else
      { stopLoss := finalStop, method := .chosen method,
        stopDistance := stopDistance, stopDistancePct := stopDistancePct }

/-! ## Trade lifecycle (`execution/trade_lifecycle.py`) -/

/-- Enum `TradeLifecycleStage`; constructor names follow the Python enum,
with the two partial-exit stages written `PartialExit1` / `PartialExit2`. -/
inductive TradeLifecycleStage
  | SIGNAL_GENERATED
  | VALIDATED
  | ENTRY_PENDING
  | ENTERED
  | MONITORING
  | PartialExit1
  | PartialExit2
  | TRAILING
  | EXITED
  | REJECTED
deriving DecidableEq, Repr

/-- The `Trade` object (fields used by the lifecycle methods; timestamps and
the per-entry notes of `stage_history` are projected away, keeping the order
of visited stages). -/
structure Trade where
  tradeId : String
  symbol : String
  signalType : SignalType
  stage : TradeLifecycleStage
  entryPrice : ℚ
  quantity : ℤ
  stopLoss : ℚ
  targets : List ℚ
  confidence : ℚ
  riskReward : ℚ
  exitPrice : ℚ
  exitReason : String
  remainingQuantity : ℤ
  bookedQuantity : ℤ
  realizedPnl : ℚ
  stageHistory : List TradeLifecycleStage
  rejectionReason : String
deriving DecidableEq, Repr

/-- Embedding of `Trade.__init__`: a fresh trade in stage SIGNAL_GENERATED
with a one-element stage history. -/
def mkTrade (tradeId symbol : String) (signalType : SignalType) : Trade :=
  { tradeId := tradeId, symbol := symbol, signalType := signalType,
    stage := .SIGNAL_GENERATED, entryPrice := 0, quantity := 0, stopLoss := 0,
    targets := [], confidence := 0, riskReward := 0, exitPrice := 0,
    exitReason := "", remainingQuantity := 0, bookedQuantity := 0,
    realizedPnl := 0, stageHistory := [.SIGNAL_GENERATED], rejectionReason := "" }

/-- Embedding of `Trade.update_stage`: set the stage and append it to the
stage history. -/
def update_stage (t : Trade) (newStage : TradeLifecycleStage) : Trade :=
  { t with stage := newStage, stageHistory := t.stageHistory ++ [newStage] }

/-- Embedding of `Trade.enter_trade`: record entry parameters, then move the
stage to ENTERED and immediately to MONITORING. -/
def enter_trade (t : Trade) (entryPrice : ℚ) (quantity : ℤ) (stopLoss : ℚ)
    (targets : List ℚ) : Trade :=
  let t := { t with entryPrice := entryPrice, quantity := quantity,
                    remainingQuantity := quantity, stopLoss := stopLoss,
                    targets := targets }
  update_stage (update_stage t .ENTERED) .MONITORING

/-- Embedding of `Trade.partial_exit` (here `partExit`): book a partial
quantity, accrue realized P&L, and move to the stage for the target level
(defaulting to the level-1 stage for unknown levels). -/
def partExit (t : Trade) (exitPrice : ℚ) (quantity : ℤ) (targetLevel : ℕ) : Trade :=
  let partialPnl := if t.signalType = SignalType.BUY
    then (exitPrice - t.entryPrice) * quantity
    else (t.entryPrice - exitPrice) * quantity
  let t := { t with bookedQuantity := t.bookedQuantity + quantity,
                    remainingQuantity := t.remainingQuantity - quantity,
                    realizedPnl := t.realizedPnl + partialPnl }
  let stage := if targetLevel = 1 then TradeLifecycleStage.PartialExit1
    else if targetLevel = 2 then TradeLifecycleStage.PartialExit2
    else if targetLevel = 3 then TradeLifecycleStage.TRAILING
    else TradeLifecycleStage.PartialExit1
  update_stage t stage

/-- Embedding of `Trade.final_exit`: book any remaining quantity, record the
exit, and move to EXITED. -/
def final_exit (t : Trade) (exitPrice : ℚ) (reason : String) : Trade :=
  let t := if 0 < t.remainingQuantity then
      let finalPnl := if t.signalType = SignalType.BUY
        then (exitPrice - t.entryPrice) * t.remainingQuantity
        else (t.entryPrice - exitPrice) * t.remainingQuantity
      { t with realizedPnl := t.realizedPnl + finalPnl,
               bookedQuantity := t.bookedQuantity + t.remainingQuantity,
               remainingQuantity := 0 }
    else t
  update_stage { t with exitPrice := exitPrice, exitReason := reason } .EXITED

/-- Embedding of `Trade.reject`: record the reason and move to REJECTED. -/
def Trade.reject (t : Trade) (reason : String) : Trade :=
  update_stage { t with rejectionReason := reason } .REJECTED

/-! ## PortfolioState (`portfolio/state.py`) -/

/-- A position dictionary as stored in `PortfolioState.positions`
(timestamps and the DB trade id are projected away). -/
structure Position where
  symbol : String
  positionType : PositionType
  quantity : ℤ
  entryPrice : ℚ
  currentPrice : ℚ
  stopLoss : ℚ
  target : Option ℚ
  investment : ℚ
  unrealizedPnl : ℚ
deriving DecidableEq, Repr

/-- The fields of `PortfolioState`; positions are a list keyed by symbol. -/
structure PortfolioState where
  initialCapital : ℚ
  totalCapital : ℚ
  investedCapital : ℚ
  availableCapital : ℚ
  unrealizedPnl : ℚ
  realizedPnl : ℚ
  positions : List Position
  peakCapital : ℚ
  currentDrawdown : ℚ
  maxDrawdown : ℚ
deriving DecidableEq, Repr

/-- Embedding of `PortfolioState.__init__` with an empty database (no open
trades to reload). -/
def PortfolioState.init (initialCapital : ℚ) : PortfolioState :=
  { initialCapital := initialCapital, totalCapital := initialCapital,
    investedCapital := 0, availableCapital := initialCapital,
    unrealizedPnl := 0, realizedPnl := 0, positions := [],
    peakCapital := initialCapital, currentDrawdown := 0, maxDrawdown := 0 }

/-- Lookup of `self.positions[symbol]` (None when the key is absent). -/
def findPosition (ps : List Position) (symbol : String) : Option Position :=
  ps.find? (fun p => p.symbol == symbol)

/-- Embedding of `PortfolioState.add_position`; `dbOk` tells whether
`db.insert_trade` raises (on a DB error the method returns False before
touching any state). -/
def add_position (s : PortfolioState) (symbol : String)
    (positionType : PositionType) (quantity : ℤ) (entryPrice stopLoss : ℚ)
    (target : Option ℚ) (dbOk : Bool) : Bool × PortfolioState :=
  if (findPosition s.positions symbol).isSome then (false, s)
  else
    let investment := (quantity : ℚ) * entryPrice
    if s.availableCapital < investment then (false, s)
    else if dbOk then
      let position : Position :=
        { symbol := symbol, positionType := positionType, quantity := quantity,
          entryPrice := entryPrice, currentPrice := entryPrice,
          stopLoss := stopLoss, target := target, investment := investment,
          unrealizedPnl := 0 }
      (true, { s with positions := s.positions ++ [position],
                      availableCapital := s.availableCapital - investment,
                      investedCapital := s.investedCapital + investment })
    else (false, s)

/-- Truthiness of an optional float in Python: None and 0.0 are falsy. -/
def targetTruthy (target1 : Option ℚ) : Bool :=
  match target1 with
  | none => false
  | some t => decide (t ≠ 0)

/-- Embedding of the body of `PortfolioState.update_position_price` for a
single position: update current price and unrealized P&L, then apply the
trailing stop-loss logic (break-even move to the entry price, then the
dynamic trail to 1.5% off the current price with `round(_, 2)`).  The
Python guards `if sl:` and `if target1 and ...:` treat 0.0 as falsy, and the
trailing comparison reads the local variable `sl` bound before the
break-even move. -/
def updatePositionPrice (p : Position) (currentPrice : ℚ) : Position :=
  let pnl := if p.positionType = PositionType.LONG
    then (currentPrice - p.entryPrice) * (p.quantity : ℚ)
    else (p.entryPrice - currentPrice) * (p.quantity : ℚ)
  let p1 : Position := { p with currentPrice := currentPrice, unrealizedPnl := pnl }
  let sl := p1.stopLoss
  if sl = 0 then p1
  else if p1.positionType = PositionType.LONG then
    let p2 := if targetTruthy p1.target ∧ p1.target.getD 0 ≤ currentPrice ∧
        sl < p1.entryPrice
      then { p1 with stopLoss := p1.entryPrice } else p1
    let pctGain := (currentPrice - p1.entryPrice) / p1.entryPrice * 100
    if 2 < pctGain then
      let newSl := currentPrice * (985/1000)
      if sl < newSl then { p2 with stopLoss := round2 newSl } else p2
    else p2
  else
    let p2 := if targetTruthy p1.target ∧ currentPrice ≤ p1.target.getD 0 ∧
        p1.entryPrice < sl
      then { p1 with stopLoss := p1.entryPrice } else p1
    let pctGain := (p1.entryPrice - currentPrice) / p1.entryPrice * 100
    if 2 < pctGain then
      let newSl := currentPrice * (1015/1000)
      if newSl < sl then { p2 with stopLoss := round2 newSl } else p2
    else p2

/-- Embedding of `PortfolioState.update_position_price` on the portfolio:
no-op when the symbol has no position. -/
def update_position_price (s : PortfolioState) (symbol : String)
    (currentPrice : ℚ) : PortfolioState :=
  { s with positions := s.positions.map (fun p =>
      if p.symbol == symbol then updatePositionPrice p currentPrice else p) }

/-- Embedding of `PortfolioState.close_position` (a DB failure inside it is
caught and does not affect the state updates).  Returns the trade result
(its pnl and pnl percent) and the new state, or none with the state
unchanged when no position exists for the symbol. -/
def close_position (s : PortfolioState) (symbol : String) (exitPrice : ℚ) :
    Option (ℚ × ℚ) × PortfolioState :=
  match findPosition s.positions symbol with
  | none => (none, s)
  | some position =>
    let pnl := if position.positionType = PositionType.LONG
      then (exitPrice - position.entryPrice) * (position.quantity : ℚ)
      else (position.entryPrice - exitPrice) * (position.quantity : ℚ)
    let pnlPercent := pnl / position.investment * 100
    let proceeds := position.investment + pnl
    (some (pnl, pnlPercent),
     { s with availableCapital := s.availableCapital + proceeds,
              investedCapital := s.investedCapital - position.investment,
              realizedPnl := s.realizedPnl + pnl,
              positions := s.positions.filter (fun p => p.symbol != symbol) })

/-- Embedding of `PortfolioState.calculate_totals`. -/
def calculate_totals (s : PortfolioState) : PortfolioState :=
  let unrealized := (s.positions.map Position.unrealizedPnl).sum
  let total := s.availableCapital + s.investedCapital + unrealized
  let peak := max s.peakCapital total
  let s1 : PortfolioState :=
    { s with unrealizedPnl := unrealized, totalCapital := total,
             peakCapital := peak }
  if 0 < s1.peakCapital then
    let cd := (s1.peakCapital - s1.totalCapital) / s1.peakCapital * 100
    { s1 with currentDrawdown := cd, maxDrawdown := max s1.maxDrawdown cd }
  else s1

/-- One portfolio operation of the kind claim C2 quantifies over. -/
inductive PortfolioOp
  | add (symbol : String) (positionType : PositionType) (quantity : ℤ)
      (entryPrice stopLoss : ℚ) (target : Option ℚ) (dbOk : Bool)
  | close (symbol : String) (exitPrice : ℚ)
  | update (symbol : String) (currentPrice : ℚ)
deriving DecidableEq, Repr

/-- Apply one portfolio operation (discarding the returned value). -/
def applyOp (s : PortfolioState) : PortfolioOp → PortfolioState
  | .add symbol pt q e sl t dbOk => (add_position s symbol pt q e sl t dbOk).2
  | .close symbol x => (close_position s symbol x).2
  | .update symbol px => update_position_price s symbol px

/-- Run a sequence of portfolio operations from a state. -/
def runOps (s : PortfolioState) (ops : List PortfolioOp) : PortfolioState :=
  ops.foldl applyOp s

/-! ## RiskManager (`portfolio/risk_manager.py`) -/

/-- The mutable daily-risk state of `RiskManager` (the fields read or written
by `reset_daily_counters` and `check_daily_loss_limit`). -/
structure RiskState where
  maxDailyLossPct : ℚ
  todayStartCapital : ℚ
  todayTrades : List (String × ℕ)
  lastResetDate : ℤ
  tradingHalted : Bool
deriving DecidableEq, Repr

/-- Embedding of `RiskManager.reset_daily_counters`; `nowDate` stands for
`datetime.now().date()` and `portfolioCapital` for `portfolio.total_capital`. -/
def reset_daily_counters (nowDate : ℤ) (portfolioCapital : ℚ) (s : RiskState) :
    RiskState :=
  if nowDate ≠ s.lastResetDate then
    { s with todayStartCapital := portfolioCapital, todayTrades := [],
             lastResetDate := nowDate, tradingHalted := false }
  else s

/-- Embedding of `RiskManager.check_daily_loss_limit`: the returned Bool is
True when trading is allowed, False when halted; the updated state is also
returned (the Python method mutates `self`). -/
def check_daily_loss_limit (nowDate : ℤ) (portfolioCapital : ℚ) (s : RiskState) :
    Bool × RiskState :=
  let s1 := reset_daily_counters nowDate portfolioCapital s
  let currentPnl := portfolioCapital - s1.todayStartCapital
  let dailyLossPct := currentPnl / s1.todayStartCapital * 100
  if dailyLossPct ≤ -s1.maxDailyLossPct then
    (false, { s1 with tradingHalted := true })
  else
    (true, s1)

/-! ## SignalGenerator (`analysis/signal_generator.py`) -/

/-- The direction reported by the confluence calculation (a string in the
Python code: BULLISH, BEARISH or anything else). -/
inductive Direction
  | BULLISH
  | BEARISH
  | NEUTRAL
deriving DecidableEq, Repr

/-- The `volatility` sub-dictionary of the indicator summary built inside
`generate_signal`: exactly the keys `atr`, `regime` and `bb_position`.
Note that `atr_percentile` is NOT among its keys. -/
structure VolatilitySummary where
  atr : ℚ
  regime : String
  bbPosition : ℚ
deriving DecidableEq, Repr

/-- Python `.get(key, default)` for a numeric read of the volatility summary
dictionary: only `atr` and `bb_position` are numeric keys, every other key
falls back to the default. -/
def VolatilitySummary.getNum (v : VolatilitySummary) (key : String)
    (dflt : ℚ) : ℚ :=
  if key = "atr" then v.atr
  else if key = "bb_position" then v.bbPosition
  else dflt

/-- The signal dictionary returned by `generate_signal` (the fields read by
the execution engine). -/
structure Signal where
  symbol : String
  timeframe : String
  signalType : SignalType
  confidence : ℚ
  regime : MarketRegime
  entryPrice : ℚ
  stopLoss : ℚ
  targets : List ℚ
  riskReward : ℚ
  volatilitySummary : VolatilitySummary
  structureBreakout : Bool
deriving DecidableEq, Repr

/-- The results of the indicator, regime, confluence, structure and
stop/target computations of `generate_signal`.  They are pure functions of
the input DataFrame and touch no generator state, so they are passed as an
input to the embedding.  `atrPercentile` is the `atr_percentile` entry of
the full volatility analysis (`analyze_volatility`). -/
structure SignalAnalysis where
  direction : Direction
  baseConfidence : ℚ
  regimeConfidence : ℚ
  agreement : ℚ
  regime : MarketRegime
  currentPrice : ℚ
  atrValue : ℚ
  atrPercentile : ℚ
  stopLoss : ℚ
  targets : List ℚ
  riskReward : ℚ
  volRegime : String
  bbPosition : ℚ
  structureBreakout : Bool
deriving DecidableEq, Repr

/-- The generator state: thresholds and the per-(symbol, timeframe) cooldown
map `last_signal_time` (times in minutes). -/
structure SigGenState where
  minConfidence : ℚ
  minRiskReward : ℚ
  lastSignalTime : List (String × ℚ)
deriving DecidableEq, Repr

/-- Removal of a key from the cooldown map (used to state that a call is not
blocked by the cooldown gate). -/
def eraseTime (m : List (String × ℚ)) (key : String) : List (String × ℚ) :=
  m.filter (fun kv => kv.1 != key)

/-- Dictionary assignment `self.last_signal_time[key] = t`: the new binding
shadows any previous one. -/
def setTime (m : List (String × ℚ)) (key : String) (t : ℚ) :
    List (String × ℚ) :=
  (key, t) :: eraseTime m key

/-- The pure tail of `generate_signal` after the cooldown gate: signal type
from the confluence direction, blended and clamped confidence
(base*0.6 + regime*0.3 + agreement_boost*0.1 with agreement_boost =
agreement*0.2), then the rejection rules in source order (low confidence,
poor risk-reward, HOLD type); on success it builds the signal dictionary,
whose volatility summary holds only `atr`, `regime` and `bb_position`. -/
def signalGates (minConfidence minRiskReward : ℚ) (symbol timeframe : String)
    (a : SignalAnalysis) : Option Signal :=
  let signalType := if a.direction = Direction.BULLISH then SignalType.BUY
    else if a.direction = Direction.BEARISH then SignalType.SELL
    else SignalType.HOLD
  let confidence0 := a.baseConfidence * (6/10) + a.regimeConfidence * (3/10) +
    (a.agreement * (2/10)) * (1/10)
  let confidence := max 0 (min 100 confidence0)
  if confidence < minConfidence then none
  else if a.riskReward < minRiskReward then none
  else if signalType = SignalType.HOLD then none
  else some
    { symbol := symbol, timeframe := timeframe, signalType := signalType,
      confidence := confidence, regime := a.regime,
      entryPrice := a.currentPrice, stopLoss := a.stopLoss,
      targets := a.targets, riskReward := a.riskReward,
      volatilitySummary := { atr := a.atrValue, regime := a.volRegime,
                             bbPosition := a.bbPosition },
      structureBreakout := a.structureBreakout }

/-- Embedding of `SignalGenerator.generate_signal`.  `now` is the call time
in minutes, `dataLen` is `len(df)`, `a` packages the DataFrame-only
computations.  Gate order as in the source: insufficient data, then the
cooldown check, then the pure gates; the cooldown tracker is updated only
right before a signal is returned. -/
def generate_signal (st : SigGenState) (now : ℚ) (symbol timeframe : String)
    (dataLen : ℕ) (cooldownMinutes : ℚ) (a : SignalAnalysis) :
    Option Signal × SigGenState :=
  if dataLen < 200 then (none, st)
  else
    let cooldownKey := symbol ++ "_" ++ timeframe
    let blocked : Bool := match st.lastSignalTime.lookup cooldownKey with
      | some t => decide (now - t < cooldownMinutes)
      | none => false
    if blocked then (none, st)
    else
      match signalGates st.minConfidence st.minRiskReward symbol timeframe a with
      | none => (none, st)
      | some sig =>
        let st1 := { st with lastSignalTime := setTime st.lastSignalTime cooldownKey now }
        (some sig, st1)

theorem lookup_filter_ne (m : List (String × ℚ)) (key : String) :
    (eraseTime m key).lookup key = none := by
  induction m with
  | nil => rfl
  | cons kv rest ih =>
    by_cases h : kv.1 = key
    · simp [eraseTime, List.filter, h]
      simpa [eraseTime] using ih
    · simp only [eraseTime, List.filter]
      have hb : (kv.1 != key) = true := by simp [h]
      rw [hb]
      simp only [List.lookup]
      have hk : (key == kv.1) = false := by
        simp only [beq_eq_false_iff_ne, ne_eq]
        exact fun hc => h hc.symm
      rw [hk]
      simpa [eraseTime] using ih

/-! ## RuleDrivenExecutionEngine (`execution/execution_engine.py`) -/

/-- The ACTION field of an engine decision (the Python strings
EXECUTE_TRADE / HOLD). -/
inductive EngineAction
  | EXECUTE_TRADE
  | HOLD
deriving DecidableEq, Repr

/-- The fields of a trade-order dictionary read by `execute_trade`
(`targets` holds the target prices). -/
structure TradeOrder where
  action : EngineAction
  tradeId : String
  symbol : String
  direction : SignalType
  entryPrice : ℚ
  entryType : String
  quantity : ℤ
  stopLoss : ℚ
  targets : List ℚ
deriving DecidableEq, Repr

/-- The engine state touched by `execute_trade`: the lifecycle manager's
active trades and the portfolio (the risk manager's per-symbol trade counter
incremented on success is projected away). -/
structure EngineState where
  activeTrades : List Trade
  portfolio : PortfolioState
deriving DecidableEq, Repr

/-- Embedding of `RuleDrivenExecutionEngine.execute_trade`.  Returns none
when no active trade carries the order's trade id (the Python list indexing
`[0]` would raise).  `dbOk` models the DB insert inside `add_position`. -/
def execute_trade (es : EngineState) (o : TradeOrder) (dbOk : Bool) :
    Option (Bool × EngineState) :=
  if o.action ≠ EngineAction.EXECUTE_TRADE then some (false, es)
  else
    match es.activeTrades.find? (fun t => t.tradeId == o.tradeId) with
    | none => none
    | some trade =>
      let trade1 := enter_trade trade o.entryPrice o.quantity o.stopLoss o.targets
      let positionType := if trade1.signalType = SignalType.BUY
        then PositionType.LONG else PositionType.SHORT
      let result := add_position es.portfolio o.symbol positionType o.quantity
        o.entryPrice o.stopLoss o.targets.head? dbOk
      if result.1 then
        let trades1 := es.activeTrades.map
          (fun t => if t.tradeId == o.tradeId then trade1 else t)
        some (true, { activeTrades := trades1, portfolio := result.2 })
      else
        let trade2 := trade1.reject "Portfolio execution failed"
        let trades2 := es.activeTrades.map
          (fun t => if t.tradeId == o.tradeId then trade2 else t)
        some (false, { activeTrades := trades2, portfolio := result.2 })

theorem enter_trade_signalType (t : Trade) (e : ℚ) (q : ℤ) (sl : ℚ)
    (ts : List ℚ) : (enter_trade t e q sl ts).signalType = t.signalType := rfl

/-- The distinct HOLD reasons of `evaluate_trade_opportunity` (the Python
builds human-readable format strings; only the reason kind is modelled). -/
inductive HoldReason
  | mtfMisalignment
  | noSignal
  | lowConfidence
  | unknownRegime
  | abnormalVolatility
  | noValidEntry
  | poorRiskReward
  | sizingFailed
  | riskCheckFailed
deriving DecidableEq, Repr

/-- An engine decision: a HOLD with its reason, or a complete trade order. -/
inductive EngineDecision
  | hold (reason : HoldReason)
  | executeOrder (o : TradeOrder)
deriving DecidableEq, Repr

/-- The entry setup returned by `EntryLogic.identify_entry_type` (step 5 of
the evaluation), passed as an input to the embedding. -/
structure EntrySetup where
  valid : Bool
  entryPrice : ℚ
  entryType : String
deriving DecidableEq, Repr

/-- Embedding of the gate chain of
`RuleDrivenExecutionEngine.evaluate_trade_opportunity`.  The DataFrame- and
component-dependent computations enter as inputs: `mtfAligned` (step 1), the
signal-generator state and analysis (step 2, with the generator's default
60-minute cooldown), `entrySetup` (step 5), the candle data for the hybrid
stop (step 6), `targets` as (price, rr_ratio) pairs from `TargetCalculator`
(step 7), `totalCapital` and `riskPerTradePct` for the quantity calculation
(step 8), and `riskAllowed` for the risk-manager validation (step 9).
Step 4 reads `atr_percentile` out of the generated signal's indicator
summary with `.get(_, 50)`, exactly as the source does. -/
def evaluate_trade_opportunity (st : SigGenState) (now : ℚ)
    (symbol timeframe : String) (mtfAligned : Bool) (dataLen : ℕ)
    (a : SignalAnalysis) (candles : List Candle)
    (latestAtr latestVwap : Option ℚ) (entrySetup : EntrySetup)
    (targets : List (ℚ × ℚ)) (totalCapital riskPerTradePct : ℚ)
    (minConfidence minRR : ℚ) (tradeId : String) (riskAllowed : Bool) :
    EngineDecision :=
  if ¬ mtfAligned then .hold .mtfMisalignment
  else
    match (generate_signal st now symbol timeframe dataLen 60 a).1 with
    | none => .hold .noSignal
    | some signal =>
      if signal.confidence < minConfidence then .hold .lowConfidence
      else if signal.regime = MarketRegime.UNKNOWN then .hold .unknownRegime
      else
        let atrPercentile := signal.volatilitySummary.getNum "atr_percentile" 50
        if 95 < atrPercentile then .hold .abnormalVolatility
        else if ¬ entrySetup.valid then .hold .noValidEntry
        else
          let stopCalc := calculate_hybrid_stop candles latestAtr latestVwap
            entrySetup.entryPrice signal.signalType (3/2)
          let rrBad : Bool := match targets.head? with
            | some t0 => decide (t0.2 < minRR)
            | none => false
          if rrBad then .hold .poorRiskReward
          else
            let qty := calculate_quantity totalCapital entrySetup.entryPrice
              stopCalc.stopLoss riskPerTradePct signal.confidence 10
            if ¬ qty.valid then .hold .sizingFailed
            else if ¬ riskAllowed then .hold .riskCheckFailed
            else .executeOrder
              { action := .EXECUTE_TRADE, tradeId := tradeId, symbol := symbol,
                direction := signal.signalType,
                entryPrice := entrySetup.entryPrice,
                entryType := entrySetup.entryType, quantity := qty.quantity,
                stopLoss := stopCalc.stopLoss,
                targets := targets.map Prod.fst }

end NSALive

namespace NSALive

/-- C1: with today_start_capital = 100000 and max_daily_loss_pct = 3, a call at
capital 96000 returns false and sets the halted flag, but a second call on the
same calendar day after capital recovers to 99000 returns true again: the
return value of `check_daily_loss_limit` is recomputed from the current loss
each call and the halt is not sticky, contradicting the claim. -/
theorem check_daily_loss_limit_not_sticky :
    let s0 : RiskState := { maxDailyLossPct := 3, todayStartCapital := 100000,
                            todayTrades := [], lastResetDate := 0,
                            tradingHalted := false }
    let r1 := check_daily_loss_limit 0 96000 s0
    r1.1 = false ∧ r1.2.tradingHalted = true ∧
      (check_daily_loss_limit 0 99000 r1.2).1 = true ∧
      (check_daily_loss_limit 0 99000 r1.2).2.tradingHalted = true := by
  norm_num [check_daily_loss_limit, reset_daily_counters]

/-- After `calculate_totals`, the capital equation holds for any state (the
method recomputes `unrealized_pnl` and then defines `total_capital` as the
sum). -/
theorem calculate_totals_equation (s : PortfolioState) :
    (calculate_totals s).totalCapital =
      (calculate_totals s).availableCapital +
      (calculate_totals s).investedCapital +
      (calculate_totals s).unrealizedPnl := by
  simp only [calculate_totals]
  split <;> rfl

/-- The properties of positions reachable by LONG-only runs: LONG type,
nonnegative quantity and entry price, and a stored investment equal to
quantity times entry price. -/
def GoodPosition (p : Position) : Prop :=
  p.positionType = PositionType.LONG ∧ 0 ≤ p.quantity ∧ 0 ≤ p.entryPrice ∧
    p.investment = (p.quantity : ℚ) * p.entryPrice

/-- Constraints on an operation under which claim C2 can be repaired:
additions are LONG with nonnegative quantity and entry price, and closes
have a nonnegative exit price. -/
def GoodOp : PortfolioOp → Prop
  | .add _ pt q e _ _ _ => pt = PositionType.LONG ∧ 0 ≤ q ∧ 0 ≤ e
  | .close _ x => 0 ≤ x
  | .update _ _ => True

/-- The run invariant: nonnegative available capital and well-formed LONG
positions. -/
def PortfolioInv (s : PortfolioState) : Prop :=
  0 ≤ s.availableCapital ∧ ∀ p ∈ s.positions, GoodPosition p

theorem updatePositionPrice_fields (p : Position) (px : ℚ) :
    (updatePositionPrice p px).positionType = p.positionType ∧
    (updatePositionPrice p px).quantity = p.quantity ∧
    (updatePositionPrice p px).entryPrice = p.entryPrice ∧
    (updatePositionPrice p px).investment = p.investment ∧
    (updatePositionPrice p px).target = p.target := by
  simp only [updatePositionPrice]
  split
  · exact ⟨rfl, rfl, rfl, rfl, rfl⟩
  · split <;> (split <;> split <;> first | (split <;> exact ⟨rfl, rfl, rfl, rfl, rfl⟩) | exact ⟨rfl, rfl, rfl, rfl, rfl⟩)

theorem applyOp_inv (s : PortfolioState) (op : PortfolioOp)
    (hs : PortfolioInv s) (hop : GoodOp op) : PortfolioInv (applyOp s op) := by
  obtain ⟨havail, hpos⟩ := hs
  cases op with
  | add symbol pt q e sl t dbOk =>
    obtain ⟨hpt, hq, he⟩ := hop
    simp only [applyOp, add_position]
    split
    · exact ⟨havail, hpos⟩
    · split
      · exact ⟨havail, hpos⟩
      · split
        · rename_i hcap _
          refine ⟨?_, ?_⟩
          · dsimp only
            linarith [not_lt.mp hcap]
          · dsimp only
            intro p hp
            rcases List.mem_append.mp hp with h | h
            · exact hpos p h
            · rcases List.mem_singleton.mp h with rfl
              exact ⟨hpt, hq, he, rfl⟩
        · exact ⟨havail, hpos⟩
  | close symbol x =>
    simp only [applyOp, close_position]
    cases hfind : findPosition s.positions symbol with
    | none => exact ⟨havail, hpos⟩
    | some position =>
      have hmem : position ∈ s.positions := List.mem_of_find?_eq_some hfind
      obtain ⟨hty, hq, he, hinv⟩ := hpos position hmem
      constructor
      · dsimp only
        rw [if_pos hty]
        have hexp : position.investment +
            (x - position.entryPrice) * (position.quantity : ℚ) =
            x * (position.quantity : ℚ) := by rw [hinv]; ring
        have hx : (0:ℚ) ≤ x * (position.quantity : ℚ) :=
          mul_nonneg hop (by exact_mod_cast hq)
        linarith
      · dsimp only
        intro p hp
        exact hpos p (List.mem_of_mem_filter hp)
  | update symbol px =>
    simp only [applyOp, update_position_price]
    refine ⟨havail, ?_⟩
    intro p hp
    rcases List.mem_map.mp hp with ⟨p0, hp0, rfl⟩
    by_cases hsym : (p0.symbol == symbol) = true
    · rw [if_pos hsym]
      obtain ⟨h1, h2, h3, h4, _⟩ := updatePositionPrice_fields p0 px
      obtain ⟨g1, g2, g3, g4⟩ := hpos p0 hp0
      exact ⟨h1.trans g1, h2 ▸ g2, h3 ▸ g3, by rw [h4, h2, h3]; exact g4⟩
    · rw [if_neg hsym]
      exact hpos p0 hp0

theorem runOps_inv (s : PortfolioState) (ops : List PortfolioOp)
    (hs : PortfolioInv s) (hops : ∀ op ∈ ops, GoodOp op) :
    PortfolioInv (runOps s ops) := by
  induction ops generalizing s with
  | nil => exact hs
  | cons op rest ih =>
    exact ih (applyOp s op) (applyOp_inv s op hs (hops op (List.mem_cons_self op rest)))
      (fun o ho => hops o (List.mem_cons_of_mem op ho))

/-- C7: if a `generate_signal` call at time t1 emits a signal for
(symbol, timeframe), then (i) the cooldown tracker now maps the key to t1;
(ii) any second call before `cooldownMinutes` have elapsed returns None with
the state unchanged; (iii) a call after the window has elapsed is no longer
blocked by the cooldown gate — it returns exactly what the same call would
return from a state with no cooldown entry for the key; and (iv) generally,
whenever a call returns None the cooldown state is unchanged (the timestamp
is updated only when a signal is actually emitted). -/
theorem generate_signal_cooldown (st : SigGenState) (t1 t2 : ℚ)
    (symbol timeframe : String) (len2 : ℕ) (cd : ℚ)
    (a2 : SignalAnalysis) (len1 : ℕ) (a1 : SignalAnalysis)
    (sig : Signal) (st1 : SigGenState)
    (hemit : generate_signal st t1 symbol timeframe len1 cd a1 = (some sig, st1)) :
    st1.lastSignalTime.lookup (symbol ++ "_" ++ timeframe) = some t1 ∧
    (t2 - t1 < cd →
      generate_signal st1 t2 symbol timeframe len2 cd a2 = (none, st1)) ∧
    (cd ≤ t2 - t1 →
      (generate_signal st1 t2 symbol timeframe len2 cd a2).1 =
      (generate_signal
        { st1 with lastSignalTime := eraseTime st1.lastSignalTime (symbol ++ "_" ++ timeframe) }
        t2 symbol timeframe len2 cd a2).1) ∧
    (∀ (st' : SigGenState) (now : ℚ) (len : ℕ) (a : SignalAnalysis),
      (generate_signal st' now symbol timeframe len cd a).1 = none →
      (generate_signal st' now symbol timeframe len cd a).2 = st') := by
  have hst1 :
      st1 = { st with lastSignalTime := setTime st.lastSignalTime (symbol ++ "_" ++ timeframe) t1 } := by
    simp only [generate_signal] at hemit
    split at hemit
    · simp at hemit
    · split at hemit
      · simp at hemit
      · cases hsg : signalGates st.minConfidence st.minRiskReward symbol
            timeframe a1 with
        | none => rw [hsg] at hemit; simp at hemit
        | some s =>
          rw [hsg] at hemit
          exact (congrArg Prod.snd hemit).symm
  have hlookup : st1.lastSignalTime.lookup (symbol ++ "_" ++ timeframe) =
      some t1 := by
    rw [hst1]
    simp [setTime, List.lookup]
  refine ⟨hlookup, ?_, ?_, ?_⟩
  · intro hlt
    simp only [generate_signal]
    split
    · rfl
    · rw [hlookup]
      simp [hlt]
  · intro hge
    simp only [generate_signal]
    split
    · rfl
    · rw [hlookup, lookup_filter_ne]
      dsimp only
      have hnd : decide (t2 - t1 < cd) = false := by
        simp only [decide_eq_false_iff_not, not_lt]
        exact hge
      cases hsg : signalGates st1.minConfidence st1.minRiskReward symbol
          timeframe a2 <;> simp [hnd, hsg]
  · intro st' now len a hnone
    simp only [generate_signal] at hnone ⊢
    split
    · rfl
    · split
      · rfl
      · cases hsg : signalGates st'.minConfidence st'.minRiskReward symbol
            timeframe a with
        | none => rfl
        | some s =>
          rename_i hlen hblock
          rw [if_neg hlen, if_neg hblock, hsg] at hnone
          simp at hnone

/-- A concrete analysis input on which every gate of `generate_signal`
passes: BULLISH direction, blended confidence 92, risk-reward 2. -/
def sampleAnalysis : SignalAnalysis :=
  { direction := .BULLISH, baseConfidence := 100, regimeConfidence := 100,
    agreement := 100, regime := .TREND, currentPrice := 100, atrValue := 2,
    atrPercentile := 50, stopLoss := 97, targets := [104], riskReward := 2,
    volRegime := "HIGH", bbPosition := 1, structureBreakout := false }

/-- A generator state with thresholds 60% confidence and 1.5 risk-reward and
an empty cooldown map. -/
def sampleState : SigGenState :=
  { minConfidence := 60, minRiskReward := 3/2, lastSignalTime := [] }

/-- The signal emitted on `sampleAnalysis` from `sampleState`. -/
def sampleSignal : Signal :=
  { symbol := "S", timeframe := "5m", signalType := .BUY, confidence := 92,
    regime := .TREND, entryPrice := 100, stopLoss := 97, targets := [104],
    riskReward := 2,
    volatilitySummary := { atr := 2, regime := "HIGH", bbPosition := 1 },
    structureBreakout := false }

/-- The generator state after that emission at time 0. -/
def sampleState1 : SigGenState :=
  { minConfidence := 60, minRiskReward := 3/2, lastSignalTime := [("S_5m", 0)] }

/-- Witness for C7: from the empty-cooldown state, a call at time 0 emits the
signal; the tracker holds time 0 for the key, and a second call at time 30
(inside the 60-minute window) returns None with the state unchanged. -/
theorem generate_signal_cooldown_witness :
    sampleState1.lastSignalTime.lookup ("S" ++ "_" ++ "5m") = some 0 ∧
    generate_signal sampleState1 30 "S" "5m" 250 60 sampleAnalysis =
      (none, sampleState1) := by
  have hemit : generate_signal sampleState 0 "S" "5m" 250 60 sampleAnalysis =
      (some sampleSignal, sampleState1) := by
    norm_num [generate_signal, signalGates, setTime, eraseTime, sampleState,
      sampleAnalysis, sampleSignal, sampleState1, List.lookup]
    rw [if_neg (show ¬ (SignalType.BUY = SignalType.HOLD) from by decide)]
    rfl
  have h := generate_signal_cooldown sampleState 0 30 "S" "5m" 250 60
    sampleAnalysis 250 sampleAnalysis sampleSignal sampleState1 hemit
  exact ⟨h.1, h.2.1 (by norm_num)⟩

/-- A rational that is an exact multiple of 0.01 (the `round(_, 2)` grid). -/
def onGrid (x : ℚ) : Prop := ∃ k : ℤ, x = (k : ℚ) / 100

theorem rhe_ge (k : ℤ) (y : ℚ) (h : (k:ℚ) < y) : k ≤ rhe y := by
  have hk : k ≤ ⌊y⌋ := Int.le_floor.mpr h.le
  unfold rhe
  dsimp only
  split
  · exact hk
  · split
    · omega
    · split <;> omega

theorem rhe_le (k : ℤ) (y : ℚ) (h : y < (k:ℚ)) : rhe y ≤ k := by
  have hk : ⌊y⌋ < k := by
    have h1 : (⌊y⌋ : ℚ) < (k : ℚ) := lt_of_le_of_lt (Int.floor_le y) h
    exact_mod_cast h1
  unfold rhe
  dsimp only
  split
  · omega
  · split
    · omega
    · split <;> omega

theorem round2_onGrid (x : ℚ) : onGrid (round2 x) := ⟨rhe (100 * x), rfl⟩

theorem le_round2_of_grid_lt (a b : ℚ) (ha : onGrid a) (h : a < b) :
    a ≤ round2 b := by
  obtain ⟨k, rfl⟩ := ha
  have h100 : (k:ℚ) < 100 * b := by linarith
  have hk := rhe_ge k (100 * b) h100
  have hq : (k:ℚ) ≤ (rhe (100 * b) : ℚ) := by exact_mod_cast hk
  unfold round2
  linarith

theorem round2_le_of_grid_gt (a b : ℚ) (ha : onGrid a) (h : b < a) :
    round2 b ≤ a := by
  obtain ⟨k, rfl⟩ := ha
  have h100 : 100 * b < (k:ℚ) := by linarith
  have hk := rhe_le k (100 * b) h100
  have hq : (rhe (100 * b) : ℚ) ≤ (k:ℚ) := by exact_mod_cast hk
  unfold round2
  linarith

/-- One step of the trailing-stop logic: on the 0.01 grid, the stop is on the
grid again afterwards and only ever moves in the trade's favor. -/
theorem updatePositionPrice_stopLoss (p : Position) (px : ℚ)
    (he : onGrid p.entryPrice) (hs : onGrid p.stopLoss) :
    onGrid (updatePositionPrice p px).stopLoss ∧
    (p.positionType = PositionType.LONG →
      p.stopLoss ≤ (updatePositionPrice p px).stopLoss) ∧
    (p.positionType = PositionType.SHORT →
      (updatePositionPrice p px).stopLoss ≤ p.stopLoss) := by
  simp only [updatePositionPrice]
  split
  · exact ⟨hs, fun _ => le_refl _, fun _ => le_refl _⟩
  · split
    · rename_i hsl hlong
      split
      · split
        · rename_i hgain htrail
          refine ⟨round2_onGrid _, fun _ => le_round2_of_grid_lt _ _ hs htrail,
            fun hshort => absurd (hlong.symm.trans hshort) (by decide)⟩
        · split
          · rename_i hbe
            exact ⟨he, fun _ => hbe.2.2.le,
              fun hshort => absurd (hlong.symm.trans hshort) (by decide)⟩
          · exact ⟨hs, fun _ => le_refl _, fun _ => le_refl _⟩
      · split
        · rename_i hbe
          exact ⟨he, fun _ => hbe.2.2.le,
            fun hshort => absurd (hlong.symm.trans hshort) (by decide)⟩
        · exact ⟨hs, fun _ => le_refl _, fun _ => le_refl _⟩
    · rename_i hsl hnotlong
      split
      · split
        · rename_i hgain htrail
          refine ⟨round2_onGrid _, fun hlong => absurd hlong hnotlong,
            fun _ => round2_le_of_grid_gt _ _ hs htrail⟩
        · split
          · rename_i hbe
            exact ⟨he, fun hlong => absurd hlong hnotlong, fun _ => hbe.2.2.le⟩
          · exact ⟨hs, fun _ => le_refl _, fun _ => le_refl _⟩
      · split
        · rename_i hbe
          exact ⟨he, fun hlong => absurd hlong hnotlong, fun _ => hbe.2.2.le⟩
        · exact ⟨hs, fun _ => le_refl _, fun _ => le_refl _⟩

/-- A LONG position entered at 0.9005 with target 0.91 and initial stop 0.89,
as produced by `add_position("A", LONG, 100, 0.9005, 0.89, 0.91)`. -/
def offGridPosition : Position :=
  { symbol := "A", positionType := PositionType.LONG, quantity := 100,
    entryPrice := 9005/10000, currentPrice := 9005/10000, stopLoss := 89/100,
    target := some (91/100), investment := 100 * (9005/10000),
    unrealizedPnl := 0 }

/-- C9 counterexample: on `offGridPosition`, a first price update to 0.91
moves the stop to break-even (0.9005).  A second update to 0.9187 fires the
dynamic trail (gain 2.02% > 2%) with new_sl = 0.9049195 > 0.9005, but
`round(new_sl, 2)` stores 0.90 < 0.9005: the stop-loss of this LONG position
DECREASES, i.e. the stop is loosened, refuting the claim as stated. -/
theorem trailing_stop_rounding_counterexample :
    (updatePositionPrice offGridPosition (91/100)).stopLoss = 9005/10000 ∧
    (updatePositionPrice (updatePositionPrice offGridPosition (91/100))
      (9187/10000)).stopLoss = 90/100 ∧
    (updatePositionPrice (updatePositionPrice offGridPosition (91/100))
      (9187/10000)).stopLoss <
     (updatePositionPrice offGridPosition (91/100)).stopLoss := by
  norm_num [updatePositionPrice, offGridPosition, targetTruthy, round2, rhe]

/-- C9 (amended): across any sequence of price updates, provided the entry
price and the stop-loss are exact multiples of 0.01, the stop only moves in
the trade's favor: for a LONG position it never decreases and for a SHORT
position it never increases.  (Off the 0.01 grid the rounding of the trailed
stop can move it against the trade by less than 0.005, as the counterexample
shows.) -/
theorem trailing_stop_monotone_on_grid (p : Position) (prices : List ℚ)
    (he : onGrid p.entryPrice) (hs : onGrid p.stopLoss) :
    (p.positionType = PositionType.LONG →
      p.stopLoss ≤ (prices.foldl updatePositionPrice p).stopLoss) ∧
    (p.positionType = PositionType.SHORT →
      (prices.foldl updatePositionPrice p).stopLoss ≤ p.stopLoss) := by
  induction prices generalizing p with
  | nil => exact ⟨fun _ => le_refl _, fun _ => le_refl _⟩
  | cons px rest ih =>
    obtain ⟨hgrid, hlong, hshort⟩ := updatePositionPrice_stopLoss p px he hs
    obtain ⟨hty, _, hent, _, _⟩ := updatePositionPrice_fields p px
    have ihx := ih (updatePositionPrice p px) (by rw [hent]; exact he) hgrid
    refine ⟨fun hL => ?_, fun hS => ?_⟩
    · simp only [List.foldl_cons]
      exact le_trans (hlong hL) (ihx.1 (hty.trans hL))
    · simp only [List.foldl_cons]
      exact le_trans (ihx.2 (hty.trans hS)) (hshort hS)

/-- A LONG position with entry 100 and stop 98, both on the 0.01 grid. -/
def gridPosition : Position :=
  { symbol := "A", positionType := PositionType.LONG, quantity := 10,
    entryPrice := 100, currentPrice := 100, stopLoss := 98, target := none,
    investment := 1000, unrealizedPnl := 0 }

/-- Witness for C9 (amended): a concrete LONG position on the grid with two
price updates; the stop never decreases. -/
theorem trailing_stop_monotone_on_grid_witness :
    (onGrid gridPosition.entryPrice ∧ onGrid gridPosition.stopLoss) ∧
    ((gridPosition.positionType = PositionType.LONG →
      gridPosition.stopLoss ≤
        (([103, 105] : List ℚ).foldl updatePositionPrice gridPosition).stopLoss) ∧
    (gridPosition.positionType = PositionType.SHORT →
      (([103, 105] : List ℚ).foldl updatePositionPrice gridPosition).stopLoss ≤
        gridPosition.stopLoss)) :=
  ⟨⟨⟨10000, by norm_num [gridPosition]⟩, ⟨9800, by norm_num [gridPosition]⟩⟩,
   trailing_stop_monotone_on_grid gridPosition [103, 105]
     ⟨10000, by norm_num [gridPosition]⟩ ⟨9800, by norm_num [gridPosition]⟩⟩

/-- C5: `calculate_quantity` with capital 100000, entry 100, stop 98, risk 1%,
confidence 100 and the 10% cap computes base risk 1000, risk per share 2,
uncapped quantity 500, then recaps to quantity 100 with risk recalculated from
the capped quantity (100 × 2 = 200), returning valid = true. -/
theorem calculate_quantity_recap_example :
    pyInt ((100000 * ((1:ℚ)/100) * 1) / 2) = 500 ∧
    calculate_quantity 100000 100 98 1 100 10 =
      { quantity := 100, valid := true, reason := .cappedAtMaxPositionPct,
        capitalRequired := 10000, riskAmount := 200, riskPct := some (1/5),
        riskPerShare := some 2, confidenceMultiplier := some 1,
        positionValuePct := some 10 } := by
  constructor
  · norm_num [pyInt]
  · simp only [calculate_quantity]
    norm_num [pyInt]

/-- C6: for any candle list, optional latest atr/vwap, positive entry price and
signal type, the `stop_distance_pct` of `calculate_hybrid_stop` lies in
[0.5, 5]; with fewer than 20 candles the fallback stop has pct exactly 2 and
distance exactly 2% of the entry price. -/
theorem hybrid_stop_distance_bounds (candles : List Candle)
    (latestAtr latestVwap : Option ℚ) (entryPrice : ℚ) (signalType : SignalType)
    (atrMultiplier : ℚ) (hentry : 0 < entryPrice) :
    (1/2 ≤ (calculate_hybrid_stop candles latestAtr latestVwap entryPrice
        signalType atrMultiplier).stopDistancePct ∧
      (calculate_hybrid_stop candles latestAtr latestVwap entryPrice
        signalType atrMultiplier).stopDistancePct ≤ 5) ∧
    (candles.length < 20 →
      (calculate_hybrid_stop candles latestAtr latestVwap entryPrice
        signalType atrMultiplier).stopDistancePct = 2 ∧
      (calculate_hybrid_stop candles latestAtr latestVwap entryPrice
        signalType atrMultiplier).stopDistance = entryPrice * (2/100)) := by
  by_cases hlen : candles.length < 20
  · simp only [calculate_hybrid_stop, if_pos hlen]
    refine ⟨⟨?_, ?_⟩, fun _ => ⟨?_, ?_⟩⟩
    · norm_num
    · norm_num
    · norm_num
    · by_cases hb : signalType = SignalType.BUY
      · simp only [if_pos hb]
        rw [abs_of_nonneg (by nlinarith)]
        ring
      · simp only [if_neg hb]
        rw [abs_of_nonpos (by nlinarith)]
        ring
  · simp only [calculate_hybrid_stop, if_neg hlen]
    refine ⟨?_, fun h => absurd h hlen⟩
    by_cases hb : signalType = SignalType.BUY
    · simp only [if_pos hb]
      split
      · exact ⟨by norm_num, by norm_num⟩
      · split
        · exact ⟨by norm_num, by norm_num⟩
        · rename_i h1 h2
          exact ⟨le_of_not_lt h1, le_of_not_lt h2⟩
    · simp only [if_neg hb]
      split
      · exact ⟨by norm_num, by norm_num⟩
      · split
        · exact ⟨by norm_num, by norm_num⟩
        · rename_i h1 h2
          exact ⟨le_of_not_lt h1, le_of_not_lt h2⟩

/-- C2 counterexample: starting from capital 1000, adding a SHORT position of
10 shares at entry 100 and closing it at exit 250 leaves available_capital at
-500 (negative), and the state fields violate the claimed equation
available + invested + unrealized = total (the fields `unrealized_pnl` and
`total_capital` are only recomputed by `calculate_totals`, which none of the
three operations calls). -/
theorem portfolio_invariant_counterexample :
    (runOps (PortfolioState.init 1000)
        [PortfolioOp.add "A" PositionType.SHORT 10 100 110 none true,
         PortfolioOp.close "A" 250]).availableCapital = -500 ∧
    ¬ (0 ≤ (runOps (PortfolioState.init 1000)
        [PortfolioOp.add "A" PositionType.SHORT 10 100 110 none true,
         PortfolioOp.close "A" 250]).availableCapital) ∧
    (runOps (PortfolioState.init 1000)
        [PortfolioOp.add "A" PositionType.SHORT 10 100 110 none true,
         PortfolioOp.close "A" 250]).availableCapital +
      (runOps (PortfolioState.init 1000)
        [PortfolioOp.add "A" PositionType.SHORT 10 100 110 none true,
         PortfolioOp.close "A" 250]).investedCapital +
      (runOps (PortfolioState.init 1000)
        [PortfolioOp.add "A" PositionType.SHORT 10 100 110 none true,
         PortfolioOp.close "A" 250]).unrealizedPnl ≠
      (runOps (PortfolioState.init 1000)
        [PortfolioOp.add "A" PositionType.SHORT 10 100 110 none true,
         PortfolioOp.close "A" 250]).totalCapital := by
  norm_num [runOps, List.foldl, applyOp, add_position, close_position,
    findPosition, PortfolioState.init, List.find?]
  norm_num [if_neg (show ¬ PositionType.SHORT = PositionType.LONG from by decide)]

/-- C2 (amended): for LONG-only runs with nonnegative quantities and prices
from a nonnegative initial capital, after every prefix of the operation
sequence the available capital is nonnegative, and the capital equation
available + invested + unrealized = total holds once `calculate_totals` has
recomputed the totals. -/
theorem portfolio_invariant_long_only (initialCapital : ℚ)
    (h0 : 0 ≤ initialCapital) (ops pre : List PortfolioOp)
    (hops : ∀ op ∈ ops, GoodOp op) (hpre : pre <+: ops) :
    0 ≤ (runOps (PortfolioState.init initialCapital) pre).availableCapital ∧
    (calculate_totals
        (runOps (PortfolioState.init initialCapital) pre)).totalCapital =
      (calculate_totals
        (runOps (PortfolioState.init initialCapital) pre)).availableCapital +
      (calculate_totals
        (runOps (PortfolioState.init initialCapital) pre)).investedCapital +
      (calculate_totals
        (runOps (PortfolioState.init initialCapital) pre)).unrealizedPnl := by
  have hinv : PortfolioInv (runOps (PortfolioState.init initialCapital) pre) := by
    apply runOps_inv
    · refine ⟨h0, ?_⟩
      intro p hp
      simp [PortfolioState.init] at hp
    · intro op hop
      exact hops op (hpre.subset hop)
  exact ⟨hinv.1, calculate_totals_equation _⟩

/-- Witness for C2 (amended) on a concrete LONG-only run. -/
theorem portfolio_invariant_long_only_witness :
    ((0:ℚ) ≤ 1000 ∧
      (∀ op ∈ ([PortfolioOp.add "A" PositionType.LONG 2 100 95 none true,
        PortfolioOp.update "A" 103,
        PortfolioOp.close "A" 110] : List PortfolioOp), GoodOp op)) ∧
    (0 ≤ (runOps (PortfolioState.init 1000)
        [PortfolioOp.add "A" PositionType.LONG 2 100 95 none true,
         PortfolioOp.update "A" 103,
         PortfolioOp.close "A" 110]).availableCapital ∧
    (calculate_totals (runOps (PortfolioState.init 1000)
        [PortfolioOp.add "A" PositionType.LONG 2 100 95 none true,
         PortfolioOp.update "A" 103,
         PortfolioOp.close "A" 110])).totalCapital =
      (calculate_totals (runOps (PortfolioState.init 1000)
        [PortfolioOp.add "A" PositionType.LONG 2 100 95 none true,
         PortfolioOp.update "A" 103,
         PortfolioOp.close "A" 110])).availableCapital +
      (calculate_totals (runOps (PortfolioState.init 1000)
        [PortfolioOp.add "A" PositionType.LONG 2 100 95 none true,
         PortfolioOp.update "A" 103,
         PortfolioOp.close "A" 110])).investedCapital +
      (calculate_totals (runOps (PortfolioState.init 1000)
        [PortfolioOp.add "A" PositionType.LONG 2 100 95 none true,
         PortfolioOp.update "A" 103,
         PortfolioOp.close "A" 110])).unrealizedPnl) := by
  have hops : ∀ op ∈ ([PortfolioOp.add "A" PositionType.LONG 2 100 95 none true,
      PortfolioOp.update "A" 103,
      PortfolioOp.close "A" 110] : List PortfolioOp), GoodOp op := by
    intro op hop
    simp only [List.mem_cons, List.not_mem_nil, or_false] at hop
    rcases hop with rfl | rfl | rfl
    · exact ⟨rfl, by norm_num, by norm_num⟩
    · exact trivial
    · norm_num [GoodOp]
  exact ⟨⟨by norm_num, hops⟩,
    portfolio_invariant_long_only 1000 (by norm_num) _ _ hops (List.prefix_refl _)⟩

theorem add_position_false_state (s : PortfolioState) (symbol : String)
    (pt : PositionType) (q : ℤ) (e sl : ℚ) (t : Option ℚ) (dbOk : Bool)
    (h : (add_position s symbol pt q e sl t dbOk).1 = false) :
    (add_position s symbol pt q e sl t dbOk).2 = s := by
  by_cases h1 : (findPosition s.positions symbol).isSome
  · simp [add_position, h1]
  · by_cases h2 : s.availableCapital < (q:ℚ) * e
    · simp [add_position, h1, h2]
    · by_cases h3 : dbOk = true
      · exfalso
        simp [add_position, h1, h2, h3] at h
      · simp [add_position, h1, h2, h3]

/-- C10: whenever `add_position` returns False (duplicate symbol, investment
exceeding available capital, or persistence failure), the portfolio state is
completely unchanged: the rejection is atomic. -/
theorem add_position_failure_atomic (s : PortfolioState) (symbol : String)
    (pt : PositionType) (q : ℤ) (e sl : ℚ) (t : Option ℚ) (dbOk : Bool)
    (h : (add_position s symbol pt q e sl t dbOk).1 = false) :
    (add_position s symbol pt q e sl t dbOk).2 = s :=
  add_position_false_state s symbol pt q e sl t dbOk h

/-- Witness for C10: adding a 10 × 100 position to a portfolio with only 100
available fails and leaves the state untouched. -/
theorem add_position_failure_atomic_witness :
    (add_position (PortfolioState.init 100) "A" PositionType.LONG 10 100 95
      none true).1 = false ∧
    (add_position (PortfolioState.init 100) "A" PositionType.LONG 10 100 95
      none true).2 = PortfolioState.init 100 :=
  ⟨by norm_num [add_position, findPosition, PortfolioState.init, List.find?],
   add_position_failure_atomic _ _ _ _ _ _ _ _
     (by norm_num [add_position, findPosition, PortfolioState.init, List.find?])⟩

/-- C3: `execute_trade` returns false and leaves the state unchanged when the
order's ACTION is not EXECUTE_TRADE; for an EXECUTE_TRADE order whose trade
id is active, it returns true exactly when the portfolio mutation
(`add_position`) succeeds, and on portfolio failure it returns false with
the portfolio unchanged and the trade moved to the REJECTED stage: the
lifecycle manager and the portfolio agree on success or failure. -/
theorem execute_trade_agreement (es : EngineState) (o : TradeOrder)
    (dbOk : Bool) :
    (o.action ≠ EngineAction.EXECUTE_TRADE →
      execute_trade es o dbOk = some (false, es)) ∧
    (∀ trade, o.action = EngineAction.EXECUTE_TRADE →
      es.activeTrades.find? (fun t => t.tradeId == o.tradeId) = some trade →
      ∃ r es1, execute_trade es o dbOk = some (r, es1) ∧
        (r = true ↔
          (add_position es.portfolio o.symbol
            (if trade.signalType = SignalType.BUY then PositionType.LONG
             else PositionType.SHORT)
            o.quantity o.entryPrice o.stopLoss o.targets.head? dbOk).1 = true) ∧
        (r = false → es1.portfolio = es.portfolio ∧
          ∀ t ∈ es1.activeTrades, t.tradeId = o.tradeId →
            t.stage = TradeLifecycleStage.REJECTED)) := by
  constructor
  · intro hne
    simp only [execute_trade, if_pos hne]
  · intro trade hact hfind
    have hne : ¬ o.action ≠ EngineAction.EXECUTE_TRADE := by simp [hact]
    simp only [execute_trade, if_neg hne, hfind]
    simp only [enter_trade_signalType]
    by_cases hs : (add_position es.portfolio o.symbol
        (if trade.signalType = SignalType.BUY then PositionType.LONG
         else PositionType.SHORT)
        o.quantity o.entryPrice o.stopLoss o.targets.head? dbOk).1 = true
    · rw [if_pos hs]
      exact ⟨true, _, rfl, ⟨fun _ => hs, fun _ => rfl⟩,
        fun h => Bool.noConfusion h⟩
    · rw [if_neg hs]
      refine ⟨false, _, rfl, ⟨fun h => Bool.noConfusion h, fun h => absurd h hs⟩,
        fun _ => ⟨?_, ?_⟩⟩
      · have hs' : (add_position es.portfolio o.symbol
            (if trade.signalType = SignalType.BUY then PositionType.LONG
             else PositionType.SHORT)
            o.quantity o.entryPrice o.stopLoss o.targets.head? dbOk).1 = false := by
          cases hb : (add_position es.portfolio o.symbol
              (if trade.signalType = SignalType.BUY then PositionType.LONG
               else PositionType.SHORT)
              o.quantity o.entryPrice o.stopLoss o.targets.head? dbOk).1
          · rfl
          · exact absurd hb hs
        exact add_position_false_state _ _ _ _ _ _ _ _ hs'
      · intro t ht htid
        rcases List.mem_map.mp ht with ⟨t0, ht0, rfl⟩
        by_cases hb : (t0.tradeId == o.tradeId) = true
        · rw [if_pos hb]
          rfl
        · rw [if_neg hb] at htid
          exact absurd (by simp [htid] : (t0.tradeId == o.tradeId) = true) hb

/-- A lifecycle manager state with one freshly created BUY trade T00001 for
symbol A, alongside a portfolio with capital 1000. -/
def sampleEngineState : EngineState :=
  { activeTrades := [mkTrade "T00001" "A" SignalType.BUY],
    portfolio := PortfolioState.init 1000 }

/-- An EXECUTE_TRADE order for that trade: 10 shares at 50. -/
def sampleOrder : TradeOrder :=
  { action := .EXECUTE_TRADE, tradeId := "T00001", symbol := "A",
    direction := .BUY, entryPrice := 50, entryType := "PULLBACK",
    quantity := 10, stopLoss := 49, targets := [52] }

/-- A HOLD decision (no execution). -/
def sampleHold : TradeOrder :=
  { action := .HOLD, tradeId := "", symbol := "A", direction := .HOLD,
    entryPrice := 0, entryType := "", quantity := 0, stopLoss := 0,
    targets := [] }

/-- Witness for C3: a HOLD order is a no-op returning false, and for the
EXECUTE_TRADE order the result exists and its flag matches the portfolio
mutation outcome. -/
theorem execute_trade_agreement_witness :
    (execute_trade sampleEngineState sampleHold true =
      some (false, sampleEngineState)) ∧
    (∃ r es1, execute_trade sampleEngineState sampleOrder true =
        some (r, es1) ∧
      (r = true ↔
        (add_position sampleEngineState.portfolio sampleOrder.symbol
          (if (mkTrade "T00001" "A" SignalType.BUY).signalType = SignalType.BUY
           then PositionType.LONG else PositionType.SHORT)
          sampleOrder.quantity sampleOrder.entryPrice sampleOrder.stopLoss
          sampleOrder.targets.head? true).1 = true) ∧
      (r = false → es1.portfolio = sampleEngineState.portfolio ∧
        ∀ t ∈ es1.activeTrades, t.tradeId = sampleOrder.tradeId →
          t.stage = TradeLifecycleStage.REJECTED)) :=
  ⟨(execute_trade_agreement sampleEngineState sampleHold true).1
      (by simp [sampleHold]),
   (execute_trade_agreement sampleEngineState sampleOrder true).2
      (mkTrade "T00001" "A" SignalType.BUY) (by simp [sampleOrder])
      (by simp [sampleEngineState, sampleOrder, List.find?, mkTrade])⟩

/-- The analysis of claim C4: ATR at the 99th percentile in the full
volatility analysis, no confirmed breakout, every other gate passing. -/
def highVolAnalysis : SignalAnalysis :=
  { sampleAnalysis with atrPercentile := 99 }

/-- An invalid entry setup (so the evaluation stops at the entry gate,
right AFTER the abnormal-volatility gate). -/
def invalidEntry : EntrySetup :=
  { valid := false, entryPrice := 100, entryType := "PULLBACK" }

/-- C4 (code_bug): the full volatility analysis reports atr_percentile = 99
with no confirmed breakout and all earlier gates pass, yet the engine does
NOT return the abnormal-volatility HOLD: the indicator summary built by
`generate_signal` carries no `atr_percentile` key, so the engine's
`.get('atr_percentile', 50)` always reads the default 50 and the `> 95`
gate can never fire; the evaluation proceeds to entry selection and stops
at the no-valid-entry gate instead. -/
theorem abnormal_volatility_gate_dead :
    highVolAnalysis.atrPercentile = 99 ∧
    highVolAnalysis.structureBreakout = false ∧
    (signalGates 60 (3/2) "S" "5m" highVolAnalysis).map
      (fun s => s.volatilitySummary.getNum "atr_percentile" 50) = some 50 ∧
    evaluate_trade_opportunity sampleState 0 "S" "5m" true 250 highVolAnalysis
        [] none none invalidEntry [(104, 2)] 100000 1 60 (3/2) "T00001" true =
      EngineDecision.hold HoldReason.noValidEntry ∧
    evaluate_trade_opportunity sampleState 0 "S" "5m" true 250 highVolAnalysis
        [] none none invalidEntry [(104, 2)] 100000 1 60 (3/2) "T00001" true ≠
      EngineDecision.hold HoldReason.abnormalVolatility := by
  have hsg : signalGates 60 (3/2) "S" "5m" highVolAnalysis =
      some sampleSignal := by
    norm_num [signalGates, highVolAnalysis, sampleAnalysis, sampleSignal]
    intro h
    exact absurd h (by decide)
  have hsig : (generate_signal sampleState 0 "S" "5m" 250 60
      highVolAnalysis).1 = some sampleSignal := by
    rw [generate_signal]
    norm_num [sampleState, List.lookup, hsg]
  have heval : evaluate_trade_opportunity sampleState 0 "S" "5m" true 250
      highVolAnalysis [] none none invalidEntry [(104, 2)] 100000 1 60 (3/2)
      "T00001" true = EngineDecision.hold HoldReason.noValidEntry := by
    rw [evaluate_trade_opportunity, hsig]
    norm_num [sampleSignal, invalidEntry, VolatilitySummary.getNum]
    rw [if_neg (show ¬ (MarketRegime.TREND = MarketRegime.UNKNOWN) from
      by decide)]
    rw [if_neg (show ¬ ("atr_percentile" = "atr") from by decide)]
    rw [if_neg (show ¬ ("atr_percentile" = "bb_position") from by decide)]
    norm_num
  refine ⟨rfl, rfl, ?_, heval, ?_⟩
  · rw [hsg]
    simp only [Option.map_some']
    rw [VolatilitySummary.getNum]
    rw [if_neg (show ¬ ("atr_percentile" = "atr") from by decide)]
    rw [if_neg (show ¬ ("atr_percentile" = "bb_position") from by decide)]
  · rw [heval]
    decide

/-- C8: the call sequence construction, enter_trade, partial exit at target
level 1, final exit drives the trade's stage through SIGNAL_GENERATED,
ENTERED, MONITORING, PARTIAL_EXIT_1, EXITED in that order; the stage history
length grows strictly at every transition (1, then 3 after the two
transitions of enter_trade, then 4, then 5) and SIGNAL_GENERATED appears only
once, never re-entered. -/
theorem trade_lifecycle_stage_sequence (tradeId symbol : String)
    (st : SignalType) (entryPrice stopLoss px1 px2 : ℚ) (quantity q1 : ℤ)
    (targets : List ℚ) (reason : String) :
    (mkTrade tradeId symbol st).stage = .SIGNAL_GENERATED ∧
    (enter_trade (mkTrade tradeId symbol st) entryPrice quantity stopLoss
      targets).stage = .MONITORING ∧
    (partExit (enter_trade (mkTrade tradeId symbol st) entryPrice quantity
      stopLoss targets) px1 q1 1).stage = .PartialExit1 ∧
    (final_exit (partExit (enter_trade (mkTrade tradeId symbol st) entryPrice
      quantity stopLoss targets) px1 q1 1) px2 reason).stage = .EXITED ∧
    (final_exit (partExit (enter_trade (mkTrade tradeId symbol st) entryPrice
      quantity stopLoss targets) px1 q1 1) px2 reason).stageHistory =
      [.SIGNAL_GENERATED, .ENTERED, .MONITORING, .PartialExit1, .EXITED] ∧
    (mkTrade tradeId symbol st).stageHistory.length = 1 ∧
    (enter_trade (mkTrade tradeId symbol st) entryPrice quantity stopLoss
      targets).stageHistory.length = 3 ∧
    (partExit (enter_trade (mkTrade tradeId symbol st) entryPrice quantity
      stopLoss targets) px1 q1 1).stageHistory.length = 4 ∧
    (final_exit (partExit (enter_trade (mkTrade tradeId symbol st) entryPrice
      quantity stopLoss targets) px1 q1 1) px2 reason).stageHistory.length = 5 ∧
    (final_exit (partExit (enter_trade (mkTrade tradeId symbol st) entryPrice
      quantity stopLoss targets) px1 q1 1) px2 reason).stageHistory.count
      .SIGNAL_GENERATED = 1 := by
  refine ⟨?_, ?_, ?_, ?_, ?_, ?_, ?_, ?_, ?_, ?_⟩ <;>
    first
      | rfl
      | (simp only [final_exit, partExit, enter_trade, mkTrade, update_stage]
         split <;> simp [List.count_cons])

/-- Witness for C6: the bounds at a concrete input (empty candle list, entry
price 100, BUY, default atr multiplier 1.5). -/
theorem hybrid_stop_distance_bounds_witness :
    (0:ℚ) < 100 ∧
    ((1/2 ≤ (calculate_hybrid_stop [] none none 100 SignalType.BUY
        (3/2)).stopDistancePct ∧
      (calculate_hybrid_stop [] none none 100 SignalType.BUY
        (3/2)).stopDistancePct ≤ 5) ∧
    (([] : List Candle).length < 20 →
      (calculate_hybrid_stop [] none none 100 SignalType.BUY
        (3/2)).stopDistancePct = 2 ∧
      (calculate_hybrid_stop [] none none 100 SignalType.BUY
        (3/2)).stopDistance = 100 * (2/100))) :=
  ⟨by norm_num,
   hybrid_stop_distance_bounds [] none none 100 SignalType.BUY (3/2) (by norm_num)⟩

end NSALive
